import Mathlib

/-!
Verification of the operator-schema registry and shape/type-inference engine
declared in `onnx/defs/experiments/defs.cc`, against its specification.

The source file contains the schema declarations of the seven experimental
operators (ThresholdedRelu, ScaledTanh, GivenTensorFill, Scale, GRUUnit,
ATen, DynamicSlice) together with the inline shape/type-inference lambda of
GivenTensorFill.  The surrounding framework (OpSchema, SchemaRegistry,
attribute validation, type-constraint resolution, and the propagation
helpers such as propagateShapeAndTypeFromFirstInput) lives outside the
visible source; those parts are modelled from the specification and carry a
doc comment saying so.
-/

namespace OnnxExperiments

/-- Element-type tags of tensors, as recognized by the engine
(spec section 6: at minimum bool, int32, int64, float16, float, double). -/
inductive ElemType where
  | bool
  | int32
  | int64
  | float16
  | float
  | double
deriving DecidableEq, Repr

/-- Declared attribute types (AttributeProto type tags used in the source:
FLOAT, INT, INTS, FLOATS; the remaining tags of the closed enumeration are
included for completeness). -/
inductive AttrType where
  | float
  | int
  | string
  | tensor
  | graph
  | floats
  | ints
  | strings
  | tensors
  | graphs
deriving DecidableEq, Repr

/-- A concrete attribute value carried by a node.  Floating-point payloads
are represented by their raw IEEE-754 bit patterns (as Nat), uninterpreted:
no claim inspects a float payload. -/
inductive AttrValue where
  | aFloat (bits : Nat)
  | aInt (v : Int)
  | aString (s : String)
  | aFloats (bits : List Nat)
  | aInts (vs : List Int)
  | aStrings (ss : List String)
deriving DecidableEq, Repr

/-- The runtime kind of an attribute value, for matching against the
declared AttributeType. -/
def attrKind : AttrValue → AttrType
  | .aFloat _ => .float
  | .aInt _ => .int
  | .aString _ => .string
  | .aFloats _ => .floats
  | .aInts _ => .ints
  | .aStrings _ => .strings

/-- Requiredness tri-state of a declared attribute (spec section 3). -/
inductive Requiredness where
  | required
  | optionalNoDefault
  | optionalWithDefault (v : AttrValue)
deriving DecidableEq, Repr

/-- One declared attribute of a schema. -/
structure AttrSpec where
  name : String
  type : AttrType
  requiredness : Requiredness
deriving DecidableEq, Repr

/-- Arity tag of an input/output slot. -/
inductive Arity where
  | single
  | optional
  | variadic
deriving DecidableEq, Repr

/-- One declared input or output slot of a schema; `typeStr` is the
type-constraint variable it is bound to. -/
structure IOSpec where
  name : String
  typeStr : String
  arity : Arity
deriving DecidableEq, Repr

/-- A type-constraint variable together with its allowed element types. -/
structure TypeConstraintDef where
  var : String
  allowed : List ElemType
deriving DecidableEq, Repr

/-- Support level of a schema. -/
inductive SupportLevel where
  | common
  | experimental
deriving DecidableEq, Repr

/-- Attribute-checking permissiveness: Strict by default, AllowUnchecked
for schemas built with AllowUncheckedAttributes (spec section 3). -/
inductive Permissiveness where
  | strict
  | allowUnchecked
deriving DecidableEq, Repr

/-- An operator schema: identity, declared attributes, I/O slots, type
constraints, support level and permissiveness (spec section 3).  The
optional inference function is kept outside the record, as a standalone
definition per operator, so that schemas stay decidably comparable data. -/
structure OpSchema where
  domain : String
  name : String
  sinceVersion : Nat
  attributes : List AttrSpec
  inputs : List IOSpec
  outputs : List IOSpec
  typeConstraints : List TypeConstraintDef
  supportLevel : SupportLevel
  permissiveness : Permissiveness
deriving DecidableEq, Repr

/-- Element type and shape knowledge about one tensor value.  A shape, when
known, is the ordered list of its dimension sizes. -/
structure TensorTypeInfo where
  elemType : Option ElemType
  shape : Option (List Int)
deriving DecidableEq, Repr

/-- A tensor-type slot about which nothing is known yet. -/
def emptyTensorInfo : TensorTypeInfo := { elemType := none, shape := none }

/-- Inference error raised by an inference function
(fail_shape_inference in the source). -/
inductive InferenceError where
  | inferenceFailure (msg : String)
deriving DecidableEq, Repr

/-- The per-node inference context (spec section 4.5): the concrete
attributes of the node and the known type information of each input.  A
`none` input entry is a missing optional input or an input of unknown
type. -/
structure Ctx where
  attributes : List (String × AttrValue)
  inputs : List (Option TensorTypeInfo)
deriving DecidableEq, Repr

/-- Look up a node attribute by name (ctx.getAttribute in the source). -/
def Ctx.getAttribute (ctx : Ctx) (name : String) : Option AttrValue :=
  (ctx.attributes.find? (fun p => p.1 == name)).map (fun p => p.2)

/-- Type information of input `i`, when the input is present and typed. -/
def Ctx.inputType (ctx : Ctx) (i : Nat) : Option TensorTypeInfo :=
  (ctx.inputs.getD i none)

/-- The known element type of input `i`, if any. -/
def inputElemType (ctx : Ctx) (i : Nat) : Option ElemType :=
  (ctx.inputType i).bind TensorTypeInfo.elemType

/-- The known shape of input `i`, if any. -/
def getInputShape (ctx : Ctx) (i : Nat) : Option (List Int) :=
  (ctx.inputType i).bind TensorTypeInfo.shape

/-- Whether input `i` has a known shape (hasInputShape in the source). -/
def hasInputShape (ctx : Ctx) (i : Nat) : Bool :=
  (getInputShape ctx i).isSome

/-- Modelled from the spec: the integer-attribute convenience accessor
`getAttribute(ctx, name, defaultValue)` used by the GivenTensorFill lambda;
it returns the INT attribute value when present and the supplied default
otherwise.  The accessor itself is declared outside the visible source. -/
def getIntAttribute (ctx : Ctx) (name : String) (defaultValue : Int) : Int :=
  match ctx.getAttribute name with
  | some (.aInt v) => v
  | _ => defaultValue

/-- Modelled from the spec: `getRepeatedAttribute(ctx, name, vec)`, which
fills `vec` with the INTS attribute value when present and leaves it empty
otherwise.  The accessor itself is declared outside the visible source. -/
def getRepeatedAttribute (ctx : Ctx) (name : String) : List Int :=
  match ctx.getAttribute name with
  | some (.aInts vs) => vs
  | _ => []

/-- Modelled from the spec: `propagateElemTypeFromInputToOutput(ctx, i, j)`
copies the known element type of input `i` onto output `j` (spec section
4.5, SetOutputType); when the input element type is unknown the output slot
is left as it was.  The helper itself is declared outside the visible
source. -/
def propagateElemTypeFromInputToOutput (ctx : Ctx) (i : Nat)
    (out : TensorTypeInfo) : TensorTypeInfo :=
  match (ctx.inputType i).bind TensorTypeInfo.elemType with
  | some t => { out with elemType := some t }
  | none => out

/-- Modelled from the spec: `propagateShapeFromAttributeToOutput(ctx, name,
j)` sets the shape of output `j` to exactly the INTS value of the named
attribute (spec section 4.5: the output shape is exactly that attribute
value); a missing or non-INTS attribute is an inference failure.  The
helper itself is declared outside the visible source. -/
def propagateShapeFromAttributeToOutput (ctx : Ctx) (attrName : String)
    (out : TensorTypeInfo) : Except InferenceError TensorTypeInfo :=
  match ctx.getAttribute attrName with
  | some (.aInts vs) => .ok { out with shape := some vs }
  | _ => .error (.inferenceFailure "Attribute expected to have ints field")

/-- Modelled from the spec: `updateOutputShape(ctx, j, shape)` commits the
computed shape to output `j` (spec section 4.5); the output slots of the
nodes considered here carry no previously declared partial shape, so the
merge is a plain set. -/
def updateOutputShape (out : TensorTypeInfo) (shape : List Int) :
    TensorTypeInfo :=
  { out with shape := some shape }

/-- The loop body of the GivenTensorFill lambda: append each extra
dimension value to the shape, failing on the first negative value exactly
as `fail_shape_inference` does in the source. -/
def addExtraDims : List Int → List Int → Except InferenceError (List Int)
  | shape, [] => .ok shape
  | shape, d :: rest =>
    if d < 0 then
      .error (.inferenceFailure
        "Negative values are not allowed in a shape specification")
    else
      addExtraDims (shape ++ [d]) rest

/-- The shape/type-inference lambda of the GivenTensorFill schema,
transcribed from the source: propagate the element type of input 0 to
output 0; if the `shape` attribute is present the output shape is that
attribute and nothing else is consulted; otherwise a nonzero
`input_as_shape` means a dynamic shape and no propagation happens;
otherwise, when input 0 has a known shape, the output shape is that shape
with each `extra_shape` value appended, failing on any negative value. -/
def givenTensorFillInfer (ctx : Ctx) : Except InferenceError TensorTypeInfo :=
  if (ctx.getAttribute "shape").isSome then
    propagateShapeFromAttributeToOutput ctx "shape"
      (propagateElemTypeFromInputToOutput ctx 0 emptyTensorInfo)
  else if getIntAttribute ctx "input_as_shape" 0 ≠ 0 then
    .ok (propagateElemTypeFromInputToOutput ctx 0 emptyTensorInfo)
  else
    match getInputShape ctx 0 with
    | some shape =>
      match addExtraDims shape (getRepeatedAttribute ctx "extra_shape") with
      | .ok s =>
        .ok (updateOutputShape
          (propagateElemTypeFromInputToOutput ctx 0 emptyTensorInfo) s)
      | .error e => .error e
    | none => .ok (propagateElemTypeFromInputToOutput ctx 0 emptyTensorInfo)

/-- Modelled from the spec: the pass-through inference function
`propagateShapeAndTypeFromFirstInput` (spec section 4.5, pattern
Pass-through) copies the element type and full shape of the first input
unchanged to the single output.  The helper itself is declared outside the
visible source; the source attaches it to ThresholdedRelu, ScaledTanh and
Scale. -/
def propagateShapeAndTypeFromFirstInput (ctx : Ctx) :
    Except InferenceError TensorTypeInfo :=
  match ctx.inputType 0 with
  | some ti => .ok { elemType := ti.elemType, shape := ti.shape }
  | none => .ok emptyTensorInfo

/-- The inference function attached to the ThresholdedRelu schema. -/
def thresholdedReluInfer : Ctx → Except InferenceError TensorTypeInfo :=
  propagateShapeAndTypeFromFirstInput

/-- The inference function attached to the ScaledTanh schema. -/
def scaledTanhInfer : Ctx → Except InferenceError TensorTypeInfo :=
  propagateShapeAndTypeFromFirstInput

/-- The inference function attached to the Scale schema. -/
def scaleInfer : Ctx → Except InferenceError TensorTypeInfo :=
  propagateShapeAndTypeFromFirstInput

/-- The allowed set shared by the float-tensor constraint declarations in
the source: tensor(float16), tensor(float), tensor(double). -/
def floatTensorTypes : List ElemType := [.float16, .float, .double]

/-- IEEE-754 single-precision bit pattern of 1.0f, the default value of the
FLOAT attributes declared with default 1.0f in the source. -/
def oneF : Nat := 0x3F800000

/-- The ThresholdedRelu schema as declared in the source: default
since_version 1, EXPERIMENTAL, one FLOAT attribute alpha with default 1.0f,
input X and output Y under constraint T restricted to float tensors. -/
def thresholdedReluSchema : OpSchema :=
  { domain := ""
    name := "ThresholdedRelu"
    sinceVersion := 1
    attributes := [⟨"alpha", .float, .optionalWithDefault (.aFloat oneF)⟩]
    inputs := [⟨"X", "T", .single⟩]
    outputs := [⟨"Y", "T", .single⟩]
    typeConstraints := [⟨"T", floatTensorTypes⟩]
    supportLevel := .experimental
    permissiveness := .strict }

/-- The ScaledTanh schema as declared in the source: EXPERIMENTAL, optional
FLOAT attributes alpha and beta, input and output under constraint T
restricted to float tensors. -/
def scaledTanhSchema : OpSchema :=
  { domain := ""
    name := "ScaledTanh"
    sinceVersion := 1
    attributes :=
      [⟨"alpha", .float, .optionalNoDefault⟩,
       ⟨"beta", .float, .optionalNoDefault⟩]
    inputs := [⟨"input", "T", .single⟩]
    outputs := [⟨"output", "T", .single⟩]
    typeConstraints := [⟨"T", floatTensorTypes⟩]
    supportLevel := .experimental
    permissiveness := .strict }

/-- The GivenTensorFill schema as declared in the source: EXPERIMENTAL, an
optional input `shape` under constraint T restricted to float tensors,
output X under T, and optional attributes values (FLOATS), shape (INTS),
input_as_shape (INT) and extra_shape (INTS). -/
def givenTensorFillSchema : OpSchema :=
  { domain := ""
    name := "GivenTensorFill"
    sinceVersion := 1
    attributes :=
      [⟨"values", .floats, .optionalNoDefault⟩,
       ⟨"shape", .ints, .optionalNoDefault⟩,
       ⟨"input_as_shape", .int, .optionalNoDefault⟩,
       ⟨"extra_shape", .ints, .optionalNoDefault⟩]
    inputs := [⟨"shape", "T", .optional⟩]
    outputs := [⟨"X", "T", .single⟩]
    typeConstraints := [⟨"T", floatTensorTypes⟩]
    supportLevel := .experimental
    permissiveness := .strict }

/-- The Scale schema as declared in the source: EXPERIMENTAL, one FLOAT
attribute scale with default 1.0f, input and output under constraint T
restricted to float tensors. -/
def scaleSchema : OpSchema :=
  { domain := ""
    name := "Scale"
    sinceVersion := 1
    attributes := [⟨"scale", .float, .optionalWithDefault (.aFloat oneF)⟩]
    inputs := [⟨"input", "T", .single⟩]
    outputs := [⟨"output", "T", .single⟩]
    typeConstraints := [⟨"T", floatTensorTypes⟩]
    supportLevel := .experimental
    permissiveness := .strict }

/-- The GRUUnit schema as declared in the source: EXPERIMENTAL, one
optional INT attribute drop_states, four inputs and one output under
constraint T restricted to float tensors. -/
def gruUnitSchema : OpSchema :=
  { domain := ""
    name := "GRUUnit"
    sinceVersion := 1
    attributes := [⟨"drop_states", .int, .optionalNoDefault⟩]
    inputs :=
      [⟨"hidden_prev", "T", .single⟩,
       ⟨"gates", "T", .single⟩,
       ⟨"seq_lengths", "T", .single⟩,
       ⟨"t", "T", .single⟩]
    outputs := [⟨"hidden", "T", .single⟩]
    typeConstraints := [⟨"T", floatTensorTypes⟩]
    supportLevel := .experimental
    permissiveness := .strict }

/-- The ATen schema as declared in the source: EXPERIMENTAL, built with
AllowUncheckedAttributes, variadic input and output under constraint T
allowing bool, int32, int64, float16, float and double tensors, and no
declared attributes. -/
def aTenSchema : OpSchema :=
  { domain := ""
    name := "ATen"
    sinceVersion := 1
    attributes := []
    inputs := [⟨"input", "T", .variadic⟩]
    outputs := [⟨"output", "T", .variadic⟩]
    typeConstraints :=
      [⟨"T", [.bool, .int32, .int64, .float16, .float, .double]⟩]
    supportLevel := .experimental
    permissiveness := .allowUnchecked }

/-- The DynamicSlice schema as declared in the source: EXPERIMENTAL, data
input and output under constraint T (all tensor types — modelled from the
spec list of recognized element types, since all_tensor_types() is declared
outside the visible source), and starts/ends/axes under Tind restricted to
integer tensors. -/
def dynamicSliceSchema : OpSchema :=
  { domain := ""
    name := "DynamicSlice"
    sinceVersion := 1
    attributes := []
    inputs :=
      [⟨"data", "T", .single⟩,
       ⟨"starts", "Tind", .single⟩,
       ⟨"ends", "Tind", .single⟩,
       ⟨"axes", "Tind", .optional⟩]
    outputs := [⟨"output", "T", .single⟩]
    typeConstraints :=
      [⟨"T", [.bool, .int32, .int64, .float16, .float, .double]⟩,
       ⟨"Tind", [.int32, .int64]⟩]
    supportLevel := .experimental
    permissiveness := .strict }

/-- All seven operator schemas declared in the source file, in source
order. -/
def experimentalSchemas : List OpSchema :=
  [thresholdedReluSchema, scaledTanhSchema, givenTensorFillSchema,
   scaleSchema, gruUnitSchema, aTenSchema, dynamicSliceSchema]

/-- Registration-time error (spec section 7). -/
inductive RegistrationError where
  | duplicateSchemaError
deriving DecidableEq, Repr

/-- Whether two schemas carry the same (domain, name, since_version)
identity triple. -/
def sameId (a b : OpSchema) : Bool :=
  a.domain == b.domain && a.name == b.name && a.sinceVersion == b.sinceVersion

/-- Modelled from the spec: the SchemaRegistry (spec sections 3 and 4.2), a
store of schemas keyed by (domain, name, since_version).  The registry
implementation is declared outside the visible source. -/
structure SchemaRegistry where
  schemas : List OpSchema
deriving DecidableEq, Repr

/-- The empty registry. -/
def SchemaRegistry.empty : SchemaRegistry := { schemas := [] }

/-- Modelled from the spec: `Register(schema)` adds the schema on success;
a duplicate (domain, name, since_version) fails with DuplicateSchemaError
and leaves the registry unchanged (spec sections 4.1, 4.2 and 7). -/
def SchemaRegistry.register (r : SchemaRegistry) (s : OpSchema) :
    SchemaRegistry × Option RegistrationError :=
  if r.schemas.any (fun t => sameId s t) then
    (r, some .duplicateSchemaError)
  else
    ({ schemas := r.schemas ++ [s] }, none)

/-- Whether a schema is a lookup candidate for (domain, name, version):
same domain and name, since_version not above the requested version. -/
def isCandidate (domain name : String) (v : Nat) (t : OpSchema) : Bool :=
  t.domain == domain && t.name == name && t.sinceVersion ≤ v

/-- Modelled from the spec: `Lookup(domain, name, opset_version)` resolves
to the schema with the greatest since_version that is at most the requested
opset version (spec section 4.2), returning none when no schema matches. -/
def SchemaRegistry.lookup (r : SchemaRegistry) (domain name : String)
    (v : Nat) : Option OpSchema :=
  (r.schemas.filter (isCandidate domain name v)).argmax OpSchema.sinceVersion

/-- A registry is well formed when no two distinct stored schemas share the
(domain, name, since_version) triple — the invariant Register maintains by
rejecting duplicates. -/
def SchemaRegistry.WF (r : SchemaRegistry) : Prop :=
  ∀ a ∈ r.schemas, ∀ b ∈ r.schemas,
    a.domain = b.domain → a.name = b.name →
    a.sinceVersion = b.sinceVersion → a = b

/-- Per-node attribute-validation errors (spec section 4.3). -/
inductive AttributeError where
  | missingRequired (name : String)
  | typeMismatch (name : String)
  | unexpectedAttribute (name : String)
deriving DecidableEq, Repr

/-- Whether the schema declares an attribute of the given name. -/
def OpSchema.declaresAttr (s : OpSchema) (name : String) : Bool :=
  s.attributes.any (fun a => a.name == name)

/-- Look up a concrete node attribute by name. -/
def lookupAttr (nodeAttrs : List (String × AttrValue)) (name : String) :
    Option AttrValue :=
  (nodeAttrs.find? (fun p => p.1 == name)).map (fun p => p.2)

/-- Modelled from the spec: the declared-attribute half of the
AttributeValidator (spec section 4.3): each declared attribute must be
present or defaulted, and a present value must match the declared
AttributeType.  The validator itself is declared outside the visible
source. -/
def checkDeclared (s : OpSchema)
    (nodeAttrs : List (String × AttrValue)) : List AttributeError :=
  s.attributes.filterMap fun spec =>
    match lookupAttr nodeAttrs spec.name with
    | none =>
      match spec.requiredness with
      | .required => some (.missingRequired spec.name)
      | _ => none
    | some v =>
      if attrKind v == spec.type then none else some (.typeMismatch spec.name)

/-- Modelled from the spec: the undeclared-attribute half of the
AttributeValidator (spec sections 3 and 4.3): under Strict permissiveness,
attributes not declared by the schema are rejected with
UnexpectedAttribute; under AllowUnchecked they are not checked.  The
validator itself is declared outside the visible source. -/
def checkUndeclared (s : OpSchema)
    (nodeAttrs : List (String × AttrValue)) : List AttributeError :=
  match s.permissiveness with
  | .allowUnchecked => []
  | .strict =>
    nodeAttrs.filterMap fun p =>
      if s.declaresAttr p.1 then none else some (.unexpectedAttribute p.1)

/-- Modelled from the spec: the AttributeValidator (spec section 4.3),
checking the concrete attributes of a node against a schema and producing
the list of attribute errors. -/
def validateAttributes (s : OpSchema)
    (nodeAttrs : List (String × AttrValue)) : List AttributeError :=
  checkDeclared s nodeAttrs ++ checkUndeclared s nodeAttrs

/-- Type-constraint violations (spec sections 4.4 and 7): an observed
element type outside the allowed set of the variable, or two references to
the same variable bound to different element types. -/
inductive ConstraintViolation where
  | notAllowed (tcVar : String) (t : ElemType)
  | bindingConflict (tcVar : String) (t1 t2 : ElemType)
deriving DecidableEq, Repr

/-- Modelled from the spec: check one constraint variable against the
observed input element types (spec section 4.4): the first referencing
input with a known type binds the variable, every later known reference
must match exactly, and every observed type must belong to the allowed set
of the variable.  The resolver itself is declared outside the visible
source. -/
def checkConstraintVar (s : OpSchema) (c : TypeConstraintDef)
    (inputTypes : List (Option ElemType)) : List ConstraintViolation :=
  let observed :=
    (s.inputs.zip inputTypes).filterMap fun p =>
      if p.1.typeStr == c.var then p.2 else none
  let notAllowed :=
    observed.filterMap fun t =>
      if c.allowed.contains t then none else some (.notAllowed c.var t)
  let conflicts :=
    match observed with
    | [] => []
    | t0 :: rest =>
      rest.filterMap fun t =>
        if t == t0 then none else some (.bindingConflict c.var t0 t)
  notAllowed ++ conflicts

/-- Modelled from the spec: the TypeConstraintResolver (spec section 4.4),
run over every constraint variable of the schema against the observed
input element types. -/
def resolveTypeConstraints (s : OpSchema)
    (inputTypes : List (Option ElemType)) : List ConstraintViolation :=
  s.typeConstraints.foldr
    (fun c acc => checkConstraintVar s c inputTypes ++ acc) []

/-! Helper lemmas about the inference building blocks. -/

/-- Appending only non-negative extra dimensions succeeds and appends them
in order. -/
theorem addExtraDims_nonneg (extras : List Int) : ∀ base : List Int,
    (∀ d ∈ extras, 0 ≤ d) → addExtraDims base extras = .ok (base ++ extras) := by
  induction extras with
  | nil => intro base _; simp [addExtraDims]
  | cons d rest ih =>
    intro base h
    have hd : 0 ≤ d := h d (by simp)
    have hrest : ∀ x ∈ rest, (0:Int) ≤ x := fun x hx => h x (by simp [hx])
    simp only [addExtraDims, if_neg (not_lt.mpr hd)]
    rw [ih (base ++ [d]) hrest]
    simp

/-- A negative value anywhere among the extra dimensions makes the append
fail with the negative-dimension message. -/
theorem addExtraDims_neg (extras : List Int) : ∀ base : List Int,
    (∃ d ∈ extras, d < 0) →
    addExtraDims base extras =
      .error (.inferenceFailure
        "Negative values are not allowed in a shape specification") := by
  induction extras with
  | nil => intro base h; exact absurd h (by simp)
  | cons d rest ih =>
    intro base h
    by_cases hd : d < 0
    · simp [addExtraDims, hd]
    · obtain ⟨x, hx, hxneg⟩ := h
      rcases List.mem_cons.mp hx with rfl | hx'
      · exact absurd hxneg hd
      · simp only [addExtraDims, if_neg hd]
        exact ih (base ++ [d]) ⟨x, hx', hxneg⟩

/-- Propagating the element type of input `i` yields an output slot whose
element type is that input element type, when the latter is known. -/
theorem propagateElemType_elemType (ctx : Ctx) (i : Nat) (t : ElemType)
    (o : TensorTypeInfo) (h : inputElemType ctx i = some t) :
    (propagateElemTypeFromInputToOutput ctx i o).elemType = some t := by
  unfold propagateElemTypeFromInputToOutput
  unfold inputElemType at h
  rw [h]

/-- Propagating an element type never touches the shape component. -/
theorem propagateElemType_shape (ctx : Ctx) (i : Nat) (o : TensorTypeInfo) :
    (propagateElemTypeFromInputToOutput ctx i o).shape = o.shape := by
  unfold propagateElemTypeFromInputToOutput
  cases (ctx.inputType i).bind TensorTypeInfo.elemType <;> rfl

/-- Propagating a shape attribute never touches the element-type
component. -/
theorem propagateShapeAttr_elemType (ctx : Ctx) (attrName : String)
    (o out : TensorTypeInfo)
    (h : propagateShapeFromAttributeToOutput ctx attrName o = .ok out) :
    out.elemType = o.elemType := by
  unfold propagateShapeFromAttributeToOutput at h
  cases hval : ctx.getAttribute attrName with
  | none => rw [hval] at h; cases h
  | some v =>
    rw [hval] at h
    cases v
    case aInts vs => cases h; rfl
    all_goals cases h

/-! C1 through C5 and C9: the inference functions. -/

/-- A GivenTensorFill node carrying both a `shape` attribute and a negative
`extra_shape` value: the early return on the `shape` attribute bypasses the
negative-dimension check entirely. -/
def ctxShapeAttrNegExtra : Ctx :=
  { attributes := [("shape", .aInts [4]), ("extra_shape", .aInts [2, -1])]
    inputs := [some { elemType := some .float, shape := some [3] }] }

/-- C1 counterexample: a GivenTensorFill node whose `extra_shape` contains
a negative value, yet whose inference succeeds and commits an output shape,
because the `shape` attribute is present and the function returns before
ever reading `extra_shape`.  This refutes the claim that any negative
`extra_shape` value raises InferenceFailure. -/
theorem givenTensorFill_negative_extra_counterexample :
    ((-1 : Int) ∈ getRepeatedAttribute ctxShapeAttrNegExtra "extra_shape") ∧
    givenTensorFillInfer ctxShapeAttrNegExtra =
      .ok { elemType := some .float, shape := some [4] } := by
  exact ⟨by decide, rfl⟩

/-- C1 (amended): on the shape-extension path — no `shape` attribute,
`input_as_shape` absent or zero, known input shape — any negative value in
`extra_shape` makes GivenTensorFill inference fail with the
negative-dimension InferenceFailure, and no output is committed. -/
theorem givenTensorFill_negative_extra_fails (ctx : Ctx) (s : List Int)
    (hshape : ctx.getAttribute "shape" = none)
    (hias : getIntAttribute ctx "input_as_shape" 0 = 0)
    (hin : getInputShape ctx 0 = some s)
    (hneg : ∃ d ∈ getRepeatedAttribute ctx "extra_shape", d < 0) :
    givenTensorFillInfer ctx =
      .error (.inferenceFailure
        "Negative values are not allowed in a shape specification") := by
  unfold givenTensorFillInfer
  rw [hshape, hin]
  simp only [Option.isSome_none, Bool.false_eq_true, if_false, hias, ne_eq,
    not_true_eq_false, reduceIte]
  rw [addExtraDims_neg _ _ hneg]

/-- A GivenTensorFill node on the shape-extension path with a negative
extra dimension. -/
def ctxNegExtra : Ctx :=
  { attributes := [("extra_shape", .aInts [2, -1])]
    inputs := [some { elemType := some .float, shape := some [3] }] }

/-- Witness for the amended C1 at a concrete node. -/
theorem givenTensorFill_negative_extra_fails_witness :
    givenTensorFillInfer ctxNegExtra =
      .error (.inferenceFailure
        "Negative values are not allowed in a shape specification") :=
  givenTensorFill_negative_extra_fails ctxNegExtra [3] rfl rfl rfl
    ⟨-1, by decide, by decide⟩

/-- C2: when the `shape` attribute is present (with its declared INTS
value), GivenTensorFill inference succeeds and sets the output shape to
exactly that attribute value, whatever the input type, the input shape,
and the other attributes are. -/
theorem givenTensorFill_shape_attr_sets_output_shape (ctx : Ctx)
    (l : List Int) (h : ctx.getAttribute "shape" = some (.aInts l)) :
    ∃ out, givenTensorFillInfer ctx = .ok out ∧ out.shape = some l := by
  unfold givenTensorFillInfer propagateShapeFromAttributeToOutput
  rw [h]
  exact ⟨_, rfl, rfl⟩

/-- A GivenTensorFill node whose `shape` attribute disagrees with its input
shape and whose other attributes are set, to exercise C2. -/
def ctxShapeAttr : Ctx :=
  { attributes :=
      [("shape", .aInts [7, 8]), ("extra_shape", .aInts [9]),
       ("input_as_shape", .aInt 1)]
    inputs := [some { elemType := some .float, shape := some [3] }] }

/-- Witness for C2 at a concrete node. -/
theorem givenTensorFill_shape_attr_witness :
    ∃ out, givenTensorFillInfer ctxShapeAttr = .ok out ∧
      out.shape = some [7, 8] :=
  givenTensorFill_shape_attr_sets_output_shape ctxShapeAttr [7, 8] rfl

/-- C3: with no `shape` attribute, `input_as_shape` absent or zero, a known
input shape, and only non-negative `extra_shape` values, the inferred
output shape is the input shape with each extra dimension appended in
order. -/
theorem givenTensorFill_extra_shape_appends (ctx : Ctx) (s : List Int)
    (hshape : ctx.getAttribute "shape" = none)
    (hias : getIntAttribute ctx "input_as_shape" 0 = 0)
    (hin : getInputShape ctx 0 = some s)
    (hnn : ∀ d ∈ getRepeatedAttribute ctx "extra_shape", 0 ≤ d) :
    ∃ out, givenTensorFillInfer ctx = .ok out ∧
      out.shape = some (s ++ getRepeatedAttribute ctx "extra_shape") := by
  unfold givenTensorFillInfer
  rw [hshape, hin]
  simp only [Option.isSome_none, Bool.false_eq_true, if_false, hias,
    ne_eq, not_true_eq_false, reduceIte]
  rw [addExtraDims_nonneg _ _ hnn]
  exact ⟨_, rfl, rfl⟩

/-- A GivenTensorFill node with input shape [3] and extra_shape [2, 5]. -/
def ctxExtra : Ctx :=
  { attributes := [("extra_shape", .aInts [2, 5])]
    inputs := [some { elemType := some .float, shape := some [3] }] }

/-- Witness for C3 at the concrete node of the specification: input shape
[3] and extra_shape [2, 5] give output shape [3, 2, 5]. -/
theorem givenTensorFill_extra_shape_appends_witness :
    ∃ out, givenTensorFillInfer ctxExtra = .ok out ∧
      out.shape = some [3, 2, 5] :=
  givenTensorFill_extra_shape_appends ctxExtra [3] rfl rfl rfl (by decide)

/-- C4: with no `shape` attribute and a nonzero `input_as_shape`,
GivenTensorFill inference succeeds without error and leaves the output
shape unresolved. -/
theorem givenTensorFill_input_as_shape_defers (ctx : Ctx)
    (hshape : ctx.getAttribute "shape" = none)
    (hias : getIntAttribute ctx "input_as_shape" 0 ≠ 0) :
    ∃ out, givenTensorFillInfer ctx = .ok out ∧ out.shape = none := by
  unfold givenTensorFillInfer
  rw [hshape]
  simp only [Option.isSome_none, Bool.false_eq_true, if_false, ne_eq, hias,
    not_false_eq_true, reduceIte]
  exact ⟨_, rfl, (propagateElemType_shape ctx 0 emptyTensorInfo).trans rfl⟩

/-- A GivenTensorFill node with input_as_shape set to 1. -/
def ctxInputAsShape : Ctx :=
  { attributes := [("input_as_shape", .aInt 1)]
    inputs := [some { elemType := some .float, shape := some [3] }] }

/-- Witness for C4 at a concrete node. -/
theorem givenTensorFill_input_as_shape_defers_witness :
    ∃ out, givenTensorFillInfer ctxInputAsShape = .ok out ∧
      out.shape = none :=
  givenTensorFill_input_as_shape_defers ctxInputAsShape rfl (by decide)

/-- C5: the pass-through inference attached to ThresholdedRelu, ScaledTanh
and Scale copies a known element type and full shape of the first input
unchanged to the single output. -/
theorem passThrough_copies_type_and_shape (ctx : Ctx) (t : ElemType)
    (s : List Int)
    (h : ctx.inputType 0 = some { elemType := some t, shape := some s }) :
    thresholdedReluInfer ctx = .ok { elemType := some t, shape := some s } ∧
    scaledTanhInfer ctx = .ok { elemType := some t, shape := some s } ∧
    scaleInfer ctx = .ok { elemType := some t, shape := some s } := by
  unfold thresholdedReluInfer scaledTanhInfer scaleInfer
    propagateShapeAndTypeFromFirstInput
  rw [h]
  exact ⟨rfl, rfl, rfl⟩

/-- A node whose first input is a float tensor of shape [2, 4]. -/
def ctxFloat24 : Ctx :=
  { attributes := []
    inputs := [some { elemType := some .float, shape := some [2, 4] }] }

/-- Witness for C5: float input of shape [2, 4] passes through unchanged
for all three operators. -/
theorem passThrough_copies_type_and_shape_witness :
    thresholdedReluInfer ctxFloat24 =
      .ok { elemType := some .float, shape := some [2, 4] } ∧
    scaledTanhInfer ctxFloat24 =
      .ok { elemType := some .float, shape := some [2, 4] } ∧
    scaleInfer ctxFloat24 =
      .ok { elemType := some .float, shape := some [2, 4] } :=
  passThrough_copies_type_and_shape ctxFloat24 .float [2, 4] rfl

/-- C9: whenever the element type of input 0 is known and GivenTensorFill
inference returns an output slot — on the shape-attribute branch, the
input_as_shape branch, the unknown-input-shape branch and the
shape-extension branch alike — that output slot carries the input element
type. -/
theorem givenTensorFill_propagates_elem_type (ctx : Ctx) (t : ElemType)
    (ht : inputElemType ctx 0 = some t) (out : TensorTypeInfo)
    (hok : givenTensorFillInfer ctx = .ok out) : out.elemType = some t := by
  have hbase := propagateElemType_elemType ctx 0 t emptyTensorInfo ht
  unfold givenTensorFillInfer at hok
  split at hok
  · exact (propagateShapeAttr_elemType ctx "shape" _ out hok).trans hbase
  · split at hok
    · cases hok; exact hbase
    · split at hok
      · split at hok
        · cases hok; exact hbase
        · cases hok
      · cases hok; exact hbase

/-- Witness for C9 at a concrete node (the input_as_shape branch). -/
theorem givenTensorFill_propagates_elem_type_witness :
    ({ elemType := some ElemType.float, shape := none } :
       TensorTypeInfo).elemType = some ElemType.float :=
  givenTensorFill_propagates_elem_type ctxInputAsShape .float rfl
    { elemType := some .float, shape := none } rfl

/-! C6 and C7: the schema registry. -/

/-- A lookup returns a candidate schema whose since_version dominates every
candidate since_version: in a well-formed registry this pins the result to
the unique schema with the greatest since_version at most the requested
version. -/
theorem lookup_eq_of_greatest (r : SchemaRegistry) (hwf : r.WF)
    (s : OpSchema) (hs : s ∈ r.schemas) (v : Nat)
    (hle : s.sinceVersion ≤ v)
    (hmax : ∀ t ∈ r.schemas, t.domain = s.domain → t.name = s.name →
      t.sinceVersion ≤ v → t.sinceVersion ≤ s.sinceVersion) :
    r.lookup s.domain s.name v = some s := by
  have hsC : s ∈ r.schemas.filter (isCandidate s.domain s.name v) :=
    List.mem_filter.mpr ⟨hs, by simp [isCandidate, hle]⟩
  unfold SchemaRegistry.lookup
  cases hm : (r.schemas.filter (isCandidate s.domain s.name v)).argmax
      OpSchema.sinceVersion with
  | none =>
    rw [List.argmax_eq_none] at hm
    rw [hm] at hsC
    exact absurd hsC (List.not_mem_nil s)
  | some m =>
    have hmC : m ∈ r.schemas.filter (isCandidate s.domain s.name v) :=
      List.argmax_mem hm
    obtain ⟨hmr, hmc⟩ := List.mem_filter.mp hmC
    have hmc' : (m.domain = s.domain ∧ m.name = s.name) ∧
        m.sinceVersion ≤ v := by
      simpa [isCandidate] using hmc
    have hsm : s.sinceVersion ≤ m.sinceVersion :=
      List.le_of_mem_argmax hsC hm
    have hms : m.sinceVersion ≤ s.sinceVersion :=
      hmax m hmr hmc'.1.1 hmc'.1.2 hmc'.2
    have : m = s :=
      hwf m hmr s hs hmc'.1.1 hmc'.1.2 (Nat.le_antisymm hms hsm)
    rw [this]

/-- C6 (amended): in a well-formed registry, Lookup at a since_version of a
registered schema returns exactly that schema; and for two versions
v1 < v2 registered under the same (domain, name) with no version
registered strictly between them, Lookup at any v with v1 ≤ v < v2
returns the v1 schema. -/
theorem lookup_resolves_greatest (r : SchemaRegistry) (hwf : r.WF) :
    (∀ s ∈ r.schemas, r.lookup s.domain s.name s.sinceVersion = some s) ∧
    (∀ s1 ∈ r.schemas, ∀ s2 ∈ r.schemas,
      s1.domain = s2.domain → s1.name = s2.name →
      s1.sinceVersion < s2.sinceVersion →
      (∀ t ∈ r.schemas, t.domain = s1.domain → t.name = s1.name →
        ¬(s1.sinceVersion < t.sinceVersion ∧
          t.sinceVersion < s2.sinceVersion)) →
      ∀ v, s1.sinceVersion ≤ v → v < s2.sinceVersion →
        r.lookup s1.domain s1.name v = some s1) := by
  constructor
  · intro s hs
    exact lookup_eq_of_greatest r hwf s hs s.sinceVersion le_rfl
      (fun t _ _ _ htv => htv)
  · intro s1 hs1 s2 _ _ _ _ hgap v hv1 hv2
    refine lookup_eq_of_greatest r hwf s1 hs1 v hv1 ?_
    intro t htr htd htn htv
    by_contra hlt
    exact hgap t htr htd htn
      ⟨Nat.lt_of_not_le hlt, Nat.lt_of_le_of_lt htv hv2⟩

/-- A bare versioned schema used to exercise the registry. -/
def mkVersionedSchema (name : String) (v : Nat) : OpSchema :=
  { domain := ""
    name := name
    sinceVersion := v
    attributes := []
    inputs := []
    outputs := []
    typeConstraints := []
    supportLevel := .experimental
    permissiveness := .strict }

/-- Version 1 of a test operator Foo. -/
def fooV1 : OpSchema := mkVersionedSchema "Foo" 1

/-- Version 2 of the test operator Foo. -/
def fooV2 : OpSchema := mkVersionedSchema "Foo" 2

/-- Version 3 of the test operator Foo. -/
def fooV3 : OpSchema := mkVersionedSchema "Foo" 3

/-- A registry holding versions 1 and 3 of Foo. -/
def regFoo13 : SchemaRegistry :=
  ((SchemaRegistry.empty.register fooV1).1.register fooV3).1

/-- A registry holding versions 1, 2 and 3 of Foo. -/
def regFoo123 : SchemaRegistry :=
  (((SchemaRegistry.empty.register fooV1).1.register fooV2).1.register
    fooV3).1

/-- Witness for the amended C6: with versions 1 and 3 of Foo registered,
lookup at version 1 returns the version-1 schema and lookup at version 2
still resolves to the version-1 schema. -/
theorem lookup_resolves_greatest_witness :
    regFoo13.lookup "" "Foo" 1 = some fooV1 ∧
    regFoo13.lookup "" "Foo" 2 = some fooV1 := by
  have h := lookup_resolves_greatest regFoo13
    (by unfold SchemaRegistry.WF; decide)
  exact ⟨h.1 fooV1 (by decide),
    h.2 fooV1 (by decide) fooV3 (by decide) rfl rfl (by decide) (by decide)
      2 (by decide) (by decide)⟩

/-- C6 counterexample: versions 1, 2 and 3 of Foo are registered; the pair
v1 = 1 and v2 = 3 satisfies the premises of the claim with v = 2
(1 ≤ 2 < 3), yet Lookup at version 2 does not return the v1 schema — it
returns the version-2 schema registered in between.  This refutes the
claim as stated for non-adjacent version pairs. -/
theorem lookup_between_versions_counterexample :
    fooV1 ∈ regFoo123.schemas ∧ fooV3 ∈ regFoo123.schemas ∧
    fooV1.domain = fooV3.domain ∧ fooV1.name = fooV3.name ∧
    fooV1.sinceVersion < fooV3.sinceVersion ∧
    fooV1.sinceVersion ≤ 2 ∧ 2 < fooV3.sinceVersion ∧
    regFoo123.lookup fooV1.domain fooV1.name 2 = some fooV2 ∧
    regFoo123.lookup fooV1.domain fooV1.name 2 ≠ some fooV1 := by
  decide

/-- C7: registering a schema whose (domain, name, since_version) triple is
already present fails with DuplicateSchemaError and returns the registry
exactly as it was — no partial mutation. -/
theorem register_duplicate_unchanged (r : SchemaRegistry) (s : OpSchema)
    (h : ∃ t ∈ r.schemas, sameId s t = true) :
    r.register s = (r, some .duplicateSchemaError) := by
  unfold SchemaRegistry.register
  rw [if_pos]
  obtain ⟨t, ht, hst⟩ := h
  exact List.any_eq_true.mpr ⟨t, ht, hst⟩

/-- A registry holding just the ThresholdedRelu schema. -/
def regOne : SchemaRegistry :=
  (SchemaRegistry.empty.register thresholdedReluSchema).1

/-- Witness for C7: re-registering ThresholdedRelu fails with
DuplicateSchemaError and leaves the one-schema registry unchanged. -/
theorem register_duplicate_unchanged_witness :
    regOne.register thresholdedReluSchema =
      (regOne, some .duplicateSchemaError) :=
  register_duplicate_unchanged regOne thresholdedReluSchema
    ⟨thresholdedReluSchema, by decide, by decide⟩

/-! C8: strict schemas reject undeclared attributes; ATen does not. -/

/-- Under Strict permissiveness, an attribute supplied by the node but not
declared by the schema yields UnexpectedAttribute naming it. -/
theorem unexpected_mem_validate (s : OpSchema)
    (hstrict : s.permissiveness = .strict)
    (nodeAttrs : List (String × AttrValue)) (name : String) (v : AttrValue)
    (hmem : (name, v) ∈ nodeAttrs) (hundecl : s.declaresAttr name = false) :
    AttributeError.unexpectedAttribute name ∈
      validateAttributes s nodeAttrs := by
  unfold validateAttributes
  apply List.mem_append_right
  unfold checkUndeclared
  rw [hstrict]
  exact List.mem_filterMap.mpr ⟨(name, v), hmem, by simp [hundecl]⟩

/-- C8: every operator schema in the source file except ATen is Strict and
rejects an attribute the node supplies but the schema does not declare,
with UnexpectedAttribute naming that attribute; ATen is declared with
AllowUncheckedAttributes and never produces UnexpectedAttribute. -/
theorem strict_rejects_undeclared_attr (s : OpSchema)
    (hs : s ∈ experimentalSchemas)
    (nodeAttrs : List (String × AttrValue)) (name : String) (v : AttrValue)
    (hmem : (name, v) ∈ nodeAttrs)
    (hundecl : s.declaresAttr name = false) :
    (s.name ≠ "ATen" →
      s.permissiveness = .strict ∧
      AttributeError.unexpectedAttribute name ∈
        validateAttributes s nodeAttrs) ∧
    (s.name = "ATen" →
      s.permissiveness = .allowUnchecked ∧
      ∀ n, AttributeError.unexpectedAttribute n ∉
        validateAttributes s nodeAttrs) := by
  have hcases : s = thresholdedReluSchema ∨ s = scaledTanhSchema ∨
      s = givenTensorFillSchema ∨ s = scaleSchema ∨ s = gruUnitSchema ∨
      s = aTenSchema ∨ s = dynamicSliceSchema := by
    simpa [experimentalSchemas] using hs
  have hstrictCase : s.permissiveness = .strict →
      (s.name ≠ "ATen" →
        s.permissiveness = .strict ∧
        AttributeError.unexpectedAttribute name ∈
          validateAttributes s nodeAttrs) ∧
      (s.name = "ATen" →
        s.permissiveness = .allowUnchecked ∧
        ∀ n, AttributeError.unexpectedAttribute n ∉
          validateAttributes s nodeAttrs) := by
    intro hstrict
    refine ⟨fun _ => ⟨hstrict,
      unexpected_mem_validate s hstrict nodeAttrs name v hmem hundecl⟩,
      fun hn => ?_⟩
    rcases hcases with rfl | rfl | rfl | rfl | rfl | rfl | rfl <;>
      first
        | exact absurd hn (by decide)
        | exact absurd hstrict (by decide)
  rcases hcases with rfl | rfl | rfl | rfl | rfl | rfl | rfl
  · exact hstrictCase rfl
  · exact hstrictCase rfl
  · exact hstrictCase rfl
  · exact hstrictCase rfl
  · exact hstrictCase rfl
  · refine ⟨fun hn => absurd rfl hn, fun _ => ⟨rfl, fun n hmem' => ?_⟩⟩
    have : validateAttributes aTenSchema nodeAttrs = [] := rfl
    rw [this] at hmem'
    exact absurd hmem' (List.not_mem_nil _)
  · exact hstrictCase rfl

/-- Witness for C8: a node attribute named bogus is rejected by the Strict
ThresholdedRelu schema and ignored by the AllowUnchecked ATen schema. -/
theorem strict_rejects_undeclared_attr_witness :
    (AttributeError.unexpectedAttribute "bogus" ∈
      validateAttributes thresholdedReluSchema [("bogus", .aInt 0)]) ∧
    (∀ n, AttributeError.unexpectedAttribute n ∉
      validateAttributes aTenSchema [("bogus", .aInt 0)]) :=
  ⟨((strict_rejects_undeclared_attr thresholdedReluSchema (by decide)
      [("bogus", .aInt 0)] "bogus" (.aInt 0) (by decide) (by decide)).1
      (by decide)).2,
   ((strict_rejects_undeclared_attr aTenSchema (by decide)
      [("bogus", .aInt 0)] "bogus" (.aInt 0) (by decide) (by decide)).2
      rfl).2⟩

/-! C10: the type constraint of the GivenTensorFill shape input. -/

/-- C10: GivenTensorFill declares its optional shape input under constraint
variable T whose allowed set is exactly the float tensor types, so an
integer-typed shape tensor (int32 or int64) produces a ConstraintViolation
naming T rather than being accepted. -/
theorem givenTensorFill_int_shape_input_violates_T :
    givenTensorFillSchema.inputs = [⟨"shape", "T", .optional⟩] ∧
    givenTensorFillSchema.typeConstraints =
      [⟨"T", [.float16, .float, .double]⟩] ∧
    resolveTypeConstraints givenTensorFillSchema [some .int32] =
      [.notAllowed "T" .int32] ∧
    resolveTypeConstraints givenTensorFillSchema [some .int64] =
      [.notAllowed "T" .int64] ∧
    resolveTypeConstraints givenTensorFillSchema [some .float] = [] := by
  exact ⟨rfl, rfl, rfl, rfl, rfl⟩

end OnnxExperiments
